import Mathlib

/-!
Verification of the fetch-with-cache-fallback subsystem of sublink-worker
(`cacheManager.js`, the worker entry, `scripts/cache.js` and the D1 schema).

The JavaScript source is shallowly embedded: JS numbers that matter are
32-bit signed integers modelled as `Int` with explicit wraparound, the D1
`subscription_cache` table is an association list keyed by `cache_key`,
the network is an oracle mapping the attempt number to an outcome, and
code that can throw returns `Except JsError`.
-/

/-- A JavaScript exception value as thrown by the embedded code: a
`TypeError`, an `Error` built with `new Error(msg)`, or `throw null`
(possible in `fetchWithRetry` when the loop body never runs). -/
inductive JsError where
  | typeError (msg : String)
  | jsError (msg : String)
  | thrownNull
deriving DecidableEq, Repr

/-- The JavaScript values that reach `generateCacheKey` in this codebase:
strings, `undefined`, `null` and (integral) numbers. -/
inductive JsVal where
  | vStr (s : String)
  | vUndefined
  | vNull
  | vNum (n : Int)
deriving DecidableEq, Repr

/-- JavaScript string coercion `String(v)` for the values of `JsVal`. -/
def jsToString : JsVal → String
  | .vStr s => s
  | .vUndefined => "undefined"
  | .vNull => "null"
  | .vNum n => toString n

/-- The argument conversion of `TextEncoder.prototype.encode(input = "")`:
`undefined` selects the default empty string, every other value is
string-coerced. -/
def textEncoderInput : JsVal → String
  | .vUndefined => ""
  | v => jsToString v

/-- UTF-8 encoding of one character (what `TextEncoder` produces; the
embedded inputs contain no lone surrogates). -/
def utf8Char (c : Char) : List Nat :=
  let n := c.toNat
  if n < 0x80 then [n]
  else if n < 0x800 then [0xC0 + n / 64, 0x80 + n % 64]
  else if n < 0x10000 then [0xE0 + n / 4096, 0x80 + (n / 64) % 64, 0x80 + n % 64]
  else [0xF0 + n / 262144, 0x80 + (n / 4096) % 64, 0x80 + (n / 64) % 64, 0x80 + n % 64]

/-- The byte sequence `new TextEncoder().encode(s)`. -/
def utf8Bytes (s : String) : List Nat :=
  s.data.foldr (fun c acc => utf8Char c ++ acc) []

/-- JS `ToInt32`: the result of `x | 0`, `x & x`, or a shift, as an `Int`
in `[-2^31, 2^31)`. -/
def toInt32 (n : Int) : Int := (n + 2 ^ 31) % 2 ^ 32 - 2 ^ 31

/-- One iteration of the rolling hash used by both cache-key functions:
`hash = ((hash << 5) - hash) + byte; hash = hash & hash;`.  `<<` already
truncates its result to 32 bits; the subtraction and addition are exact in
doubles at these magnitudes, and `hash & hash` truncates again. -/
def hashStep (hash : Int) (byte : Nat) : Int :=
  toInt32 (toInt32 (hash * 32) - hash + byte)

/-- In `cacheManager.js` the loop reads `data.charCodeAt(i)` where `data`
is the `Uint8Array` returned by `TextEncoder.encode`.  Typed arrays have no
`charCodeAt` method, so the property lookup yields `undefined` and the call
raises a `TypeError`. -/
def charCodeAtOnUint8Array (_data : List Nat) (_i : Nat) : Except JsError Nat :=
  .error (.typeError "data.charCodeAt is not a function")

/-- The loop of `generateCacheKey` in `cacheManager.js`:
`for (let i = 0; i < data.length; i++)`, reading each element through
`data.charCodeAt(i)`. -/
def gckLoop (data : List Nat) : Nat → Nat → Int → Except JsError Int
  | 0, _, hash => .ok hash
  | fuel + 1, i, hash =>
    match charCodeAtOnUint8Array data i with
    | .error e => .error e
    | .ok char => gckLoop data fuel (i + 1) (hashStep hash char)

/-- `generateCacheKey(url)` from `cacheManager.js`: encode the URL with
`TextEncoder`, fold the rolling hash over the bytes (via the faulty
`data.charCodeAt(i)` read), then `Math.abs(hash).toString(16)`. -/
def generateCacheKey (url : JsVal) : Except JsError String :=
  let data := utf8Bytes (textEncoderInput url)
  match gckLoop data data.length 0 0 with
  | .error e => .error e
  | .ok hash => .ok (String.mk (Nat.toDigits 16 hash.natAbs))

/-- JS truthiness for the values of `JsVal` (`!url` in `scripts/cache.js`). -/
def jsTruthy : JsVal → Bool
  | .vStr s => !s.isEmpty
  | .vUndefined => false
  | .vNull => false
  | .vNum n => n != 0

/-- `typeof url === "string"` for the values of `JsVal`. -/
def jsIsString : JsVal → Bool
  | .vStr _ => true
  | _ => false

namespace CacheScript

/-- `generateCacheKey(url)` from `scripts/cache.js`: the guard
`if (!url || typeof url !== "string") return "invalid-url";`, then the
same rolling hash computed with the correct `data[i]` element read. -/
def generateCacheKey (url : JsVal) : String :=
  if !jsTruthy url || !jsIsString url then "invalid-url"
  else
    let data := utf8Bytes (textEncoderInput url)
    String.mk (Nat.toDigits 16 (data.foldl hashStep 0).natAbs)

end CacheScript

/-- C2: the claim says `generateCacheKey` never raises, hashes string input
to lowercase hex and maps non-string or empty input to a fixed sentinel.
The `cacheManager.js` implementation instead raises a `TypeError` on every
non-empty input because it calls `charCodeAt` on a `Uint8Array`; the admin
script `scripts/cache.js`, which announces "same logic as cacheManager.js",
implements exactly the claimed behaviour (hash for non-empty strings, the
`invalid-url` sentinel for non-string or empty input). -/
theorem generateCacheKey_charCodeAt_bug :
    generateCacheKey (.vStr "a") = .error (.typeError "data.charCodeAt is not a function") ∧
    generateCacheKey (.vStr "https://a.test/sub") =
      .error (.typeError "data.charCodeAt is not a function") ∧
    generateCacheKey (.vStr "") = .ok "0" ∧
    CacheScript.generateCacheKey (.vStr "a") = "61" ∧
    CacheScript.generateCacheKey (.vStr "") = "invalid-url" ∧
    CacheScript.generateCacheKey .vNull = "invalid-url" ∧
    CacheScript.generateCacheKey .vUndefined = "invalid-url" := by
  refine ⟨rfl, rfl, rfl, rfl, rfl, rfl, rfl⟩

/-- ASCII lowercasing of one character (header-name normalization applied
by the `Headers` class). -/
def lowerChar (c : Char) : Char :=
  if 'A' ≤ c ∧ c ≤ 'Z' then Char.ofNat (c.toNat + 32) else c

/-- ASCII lowercasing of a header name. -/
def lowerName (s : String) : String := String.mk (s.data.map lowerChar)

/-- A `Headers` object: name/value pairs with the names already
normalized to lowercase, in insertion order. -/
abbrev HeaderList := List (String × String)

/-- `headers.has(name)` (case-insensitive). -/
def headersHas (hs : HeaderList) (name : String) : Bool :=
  hs.any (fun p => p.1 = lowerName name)

/-- `headers.set(name, value)`: replace the existing entry for the
normalized name, or append a new one. -/
def headersSet (hs : HeaderList) (name value : String) : HeaderList :=
  let n := lowerName name
  if hs.any (fun p => p.1 = n) then hs.map (fun p => if p.1 = n then (n, value) else p)
  else hs ++ [(n, value)]

/-- `headers.get(name)` (case-insensitive), `none` for an absent header. -/
def headersGet (hs : HeaderList) (name : String) : Option String :=
  (hs.find? (fun p => p.1 = lowerName name)).map (fun p => p.2)

/-- `new Headers(obj)` for a plain-object literal: each own entry is added
with its name normalized.  The same normalization happens to a plain
`headers` object when a `Request` is built from it. -/
def headersOfObj (o : List (String × String)) : HeaderList :=
  o.foldl (fun hs p => headersSet hs p.1 p.2) []

/-- One entry of the `USER_AGENTS` pool in `cacheManager.js`. -/
structure UAConfig where
  ua : String
  headers : List (String × String)
deriving DecidableEq, Repr

/-- The `USER_AGENTS` pool, verbatim from `cacheManager.js`. -/
def USER_AGENTS : List UAConfig := [
  { ua := "FlClash/v0.8.74 clash-verge Platform/windows",
    headers := [("accept-encoding", "gzip, br"),
                ("connection", "Keep-Alive"),
                ("user-agent", "FlClash/v0.8.74 clash-verge Platform/windows"),
                ("x-forwarded-proto", "https"),
                ("x-real-ip", "47.91.20.160")] },
  { ua := "curl/7.88.1", headers := [("user-agent", "curl/7.88.1")] },
  { ua := "ClashforWindows/0.20.31", headers := [("user-agent", "ClashforWindows/0.20.31")] },
  { ua := "clash-verge/v1.7.4", headers := [("user-agent", "clash-verge/v1.7.4")] },
  { ua := "Surge/5.2.0", headers := [("user-agent", "Surge/5.2.0")] },
  { ua := "Quantumult%20X/1.2.3", headers := [("user-agent", "Quantumult%20X/1.2.3")] },
  { ua := "ShadowsocksX-NG/1.8.2", headers := [("user-agent", "ShadowsocksX-NG/1.8.2")] },
  { ua := "Mozilla/5.0 (Windows NT 10.0; Win64; x64) AppleWebKit/537.36 Chrome/120.0.0.0 Safari/537.36",
    headers := [("user-agent", "Mozilla/5.0 (Windows NT 10.0; Win64; x64) AppleWebKit/537.36 Chrome/120.0.0.0 Safari/537.36"),
                ("accept", "text/html,application/xhtml+xml,application/xml;q=0.9,*/*;q=0.8"),
                ("accept-language", "en-US,en;q=0.5")] },
  { ua := "Mozilla/5.0 (Macintosh; Intel Mac OS X 10_15_7) AppleWebKit/605.1.15 Version/17.2 Safari/605.1.15",
    headers := [("user-agent", "Mozilla/5.0 (Macintosh; Intel Mac OS X 10_15_7) AppleWebKit/605.1.15 Version/17.2 Safari/605.1.15"),
                ("accept", "text/html,application/xhtml+xml,application/xml;q=0.9,*/*;q=0.8")] }]

/-- The `options` objects this codebase passes to `fetchWithRetry` and
`fetchWithCache`: at most a `headers` plain object and a `maxRetries`
number (`none` = the property is absent). -/
structure JsOptions where
  headers : Option (List (String × String))
  maxRetries : Option Nat
deriving DecidableEq, Repr

/-- The outcome the network gives one fetch attempt: a response with
`response.ok` true and the given body, a response with a non-success
status, or a thrown transport error. -/
inductive FetchOutcome where
  | ok (body : String)
  | httpError (status : Nat) (statusText : String)
  | netError (msg : String)
deriving DecidableEq, Repr

/-- The message of the error a failed attempt leaves in `lastError`:
`new Error("HTTP " + status + ": " + statusText)` for a non-success
response, the transport error message otherwise. -/
def FetchOutcome.failMessage : FetchOutcome → String
  | .ok _ => ""
  | .httpError status statusText => "HTTP " ++ toString status ++ ": " ++ statusText
  | .netError msg => msg

/-- The headers `fetchWithRetry` constructs for one attempt:
`new Headers(options.headers || \x7b\x7d)`, then the pool user-agent when
none is present, then (first attempt only) the remaining headers of the
selected identity, skipping the key `user-agent`. -/
def attemptHeaders (baseHeaders : List (String × String)) (attempt : Nat) : HeaderList :=
  let uaConfig := USER_AGENTS.getD ((attempt - 1) % USER_AGENTS.length) { ua := "", headers := [] }
  let hs := headersOfObj baseHeaders
  let hs := if headersHas hs "user-agent" then hs else headersSet hs "user-agent" uaConfig.ua
  if attempt = 1 then
    uaConfig.headers.foldl (fun hs p => if p.1 = "user-agent" then hs else headersSet hs p.1 p.2) hs
  else hs

/-- The init object a fetch attempt actually receives.  `fetchWithRetry`
calls `fetch(url, \x7b method: "GET", headers, ...options \x7d)`: because the
spread of `options` comes last, an own `headers` property of `options`
overrides the constructed `Headers` object, so the rotated identity headers
reach the request only when the caller passed no `headers` at all. -/
structure RequestInit where
  method : String
  headers : HeaderList
deriving DecidableEq, Repr

/-- The request init of attempt `attempt` (1-based). -/
def requestInitFor (options : JsOptions) (attempt : Nat) : RequestInit :=
  { method := "GET",
    headers := match options.headers with
      | some raw => headersOfObj raw
      | none => attemptHeaders [] attempt }

/-- The retry loop of `fetchWithRetry`, recursing on the number of
remaining attempts; `attempt` is the 1-based number of the next attempt.
Returns the result together with the list of request inits issued. -/
def fetchWithRetryLoop (net : Nat → FetchOutcome) (options : JsOptions) :
    Nat → Nat → Option JsError → Except JsError String × List RequestInit
  | _, 0, lastError => (.error (lastError.getD .thrownNull), [])
  | attempt, remaining + 1, _ =>
    let init := requestInitFor options attempt
    match net attempt with
    | .ok body => (.ok body, [init])
    | outcome =>
      let rest := fetchWithRetryLoop net options (attempt + 1) remaining
        (some (.jsError outcome.failMessage))
      (rest.1, init :: rest.2)

/-- `fetchWithRetry(url, options, maxRetries)` from `cacheManager.js`,
with the network as an oracle from the attempt number to its outcome. -/
def fetchWithRetry (net : Nat → FetchOutcome) (options : JsOptions) (maxRetries : Nat) :
    Except JsError String × List RequestInit :=
  fetchWithRetryLoop net options 1 maxRetries none

/-- When every attempt fails, the loop issues one request per remaining
attempt. -/
theorem fetchWithRetryLoop_length_allFail (net : Nat → FetchOutcome) (options : JsOptions)
    (hfail : ∀ i b, net i ≠ .ok b) :
    ∀ remaining attempt lastError,
      (fetchWithRetryLoop net options attempt remaining lastError).2.length = remaining := by
  intro remaining
  induction remaining with
  | zero => intro attempt lastError; simp [fetchWithRetryLoop]
  | succ r ih =>
    intro attempt lastError
    cases h : net attempt with
    | ok b => exact absurd h (hfail attempt b)
    | httpError status statusText => simp [fetchWithRetryLoop, h, ih]
    | netError msg => simp [fetchWithRetryLoop, h, ih]

/-- When every attempt fails, the loop ends in the error of its last
attempt (`throw lastError`). -/
theorem fetchWithRetryLoop_error_allFail (net : Nat → FetchOutcome) (options : JsOptions)
    (hfail : ∀ i b, net i ≠ .ok b) :
    ∀ r attempt lastError,
      (fetchWithRetryLoop net options attempt (r + 1) lastError).1 =
        .error (.jsError (net (attempt + r)).failMessage) := by
  intro r
  induction r with
  | zero =>
    intro attempt lastError
    cases h : net attempt with
    | ok b => exact absurd h (hfail attempt b)
    | httpError status statusText => simp [fetchWithRetryLoop, h, FetchOutcome.failMessage]
    | netError msg => simp [fetchWithRetryLoop, h, FetchOutcome.failMessage]
  | succ r ih =>
    intro attempt lastError
    cases h : net attempt with
    | ok b => exact absurd h (hfail attempt b)
    | httpError status statusText =>
      have := ih (attempt + 1) (some (.jsError (FetchOutcome.failMessage (net attempt))))
      simp only [fetchWithRetryLoop, h]
      rw [show attempt + 1 + r = attempt + (r + 1) by omega] at this
      simpa [h] using this
    | netError msg =>
      have := ih (attempt + 1) (some (.jsError (FetchOutcome.failMessage (net attempt))))
      simp only [fetchWithRetryLoop, h]
      rw [show attempt + 1 + r = attempt + (r + 1) by omega] at this
      simpa [h] using this

/-- When the attempts before `k` fail and attempt `k` succeeds, the loop
returns the body of attempt `k` after exactly `k - attempt + 1` requests. -/
theorem fetchWithRetryLoop_firstOk (net : Nat → FetchOutcome) (options : JsOptions)
    (k : Nat) (b : String) (hok : net k = .ok b)
    (hfail : ∀ i b', i < k → net i ≠ .ok b') :
    ∀ remaining attempt lastError, attempt ≤ k → k < attempt + remaining →
      (fetchWithRetryLoop net options attempt remaining lastError).1 = .ok b ∧
      (fetchWithRetryLoop net options attempt remaining lastError).2.length =
        k + 1 - attempt := by
  intro remaining
  induction remaining with
  | zero => intro attempt lastError h1 h2; omega
  | succ r ih =>
    intro attempt lastError h1 h2
    rcases Nat.eq_or_lt_of_le h1 with heq | hlt
    · subst heq
      simp [fetchWithRetryLoop, hok]
    · cases h : net attempt with
      | ok b' => exact absurd h (hfail attempt b' hlt)
      | httpError status statusText =>
        have := ih (attempt + 1)
          (some (.jsError (FetchOutcome.failMessage (net attempt)))) hlt (by omega)
        simp only [fetchWithRetryLoop, h]
        simp only [h] at this
        refine ⟨this.1, ?_⟩
        simp [this.2]
        omega
      | netError msg =>
        have := ih (attempt + 1)
          (some (.jsError (FetchOutcome.failMessage (net attempt)))) hlt (by omega)
        simp only [fetchWithRetryLoop, h]
        simp only [h] at this
        refine ⟨this.1, ?_⟩
        simp [this.2]
        omega

/-- C4: against an origin that fails every attempt, `fetchWithRetry` with
`maxRetries ≥ 1` issues exactly `maxRetries` sequential requests and then
raises the error of the last attempt; conversely, the first attempt whose
response is in the success range returns its body immediately, issuing no
further requests. -/
theorem fetchWithRetry_retry_contract (net : Nat → FetchOutcome) (options : JsOptions)
    (maxRetries : Nat) :
    ((∀ i b, net i ≠ .ok b) → 1 ≤ maxRetries →
      (fetchWithRetry net options maxRetries).2.length = maxRetries ∧
      (fetchWithRetry net options maxRetries).1 =
        .error (.jsError (net maxRetries).failMessage))
    ∧ (∀ k b, 1 ≤ k → k ≤ maxRetries →
        (∀ i b', i < k → net i ≠ .ok b') → net k = .ok b →
        (fetchWithRetry net options maxRetries).1 = .ok b ∧
        (fetchWithRetry net options maxRetries).2.length = k) := by
  constructor
  · intro hfail hpos
    obtain ⟨m, rfl⟩ : ∃ m, maxRetries = m + 1 := ⟨maxRetries - 1, by omega⟩
    refine ⟨fetchWithRetryLoop_length_allFail net options hfail _ 1 none, ?_⟩
    have := fetchWithRetryLoop_error_allFail net options hfail m 1 none
    rw [show 1 + m = m + 1 by omega] at this
    exact this
  · intro k b hk1 hk2 hfail hok
    have := fetchWithRetryLoop_firstOk net options k b hok hfail maxRetries 1 none hk1
      (by omega)
    refine ⟨this.1, ?_⟩
    simp only [fetchWithRetry]
    rw [this.2]
    omega

/-- A network oracle that refuses every attempt. -/
def netAlwaysFail : Nat → FetchOutcome := fun _ => .netError "connection refused"

/-- C4 witness: three attempts against an always-failing origin issue
exactly three requests and raise the last transport error. -/
theorem fetchWithRetry_retry_contract_witness :
    (fetchWithRetry netAlwaysFail { headers := none, maxRetries := none } 3).2.length = 3 ∧
    (fetchWithRetry netAlwaysFail { headers := none, maxRetries := none } 3).1 =
      .error (.jsError "connection refused") :=
  (fetchWithRetry_retry_contract netAlwaysFail { headers := none, maxRetries := none } 3).1
    (fun _ _ h => nomatch h) (by decide)

/-- C5: the claim says attempt `i` carries the pool user-agent whenever the
base headers specify none, and that the identity's remaining headers are
merged on attempt 1.  Because `fetch(url, \x7b method: "GET", headers,
...options \x7d)` spreads `options` after `headers`, an own `headers` property
of `options` replaces the constructed identity headers: with base headers
lacking a user-agent, every attempt goes out with exactly those base
headers and no user-agent at all.  Only when the caller passes no headers
do the rotated pool identities reach the request (shown for attempts 1
and 2). -/
theorem identityHeaders_overridden_by_spread :
    ((fetchWithRetry netAlwaysFail
        { headers := some [("accept", "text/plain")], maxRetries := none } 1).2 =
      [{ method := "GET", headers := [("accept", "text/plain")] }]) ∧
    ((fetchWithRetry netAlwaysFail
        { headers := some [("accept", "text/plain")], maxRetries := none } 3).2.map
          (fun i => headersGet i.headers "user-agent") = [none, none, none]) ∧
    ((fetchWithRetry netAlwaysFail { headers := none, maxRetries := none } 2).2.map
        (fun i => headersGet i.headers "user-agent") =
      [some "FlClash/v0.8.74 clash-verge Platform/windows", some "curl/7.88.1"]) := by
  refine ⟨rfl, rfl, rfl⟩

/-- One row of the `subscription_cache` table (migration
`0001_create_subscription_cache.sql`); `cache_key`, the primary key, is
kept as the association key. -/
structure CacheRow where
  url : String
  content : String
  created_at : Int
  updated_at : Int
  success_count : Int
  fail_count : Int
deriving DecidableEq, Repr

/-- The `subscription_cache` table: rows keyed by `cache_key`, unique by
the primary-key constraint. -/
abbrev Table := List (String × CacheRow)

/-- `SELECT ... WHERE cache_key = ?`: the row stored under a key. -/
def tableGet : Table → String → Option CacheRow
  | [], _ => none
  | p :: rest, k => if p.1 = k then some p.2 else tableGet rest k

/-- `INSERT OR REPLACE`: replace the row whose primary key conflicts, or
append a fresh row. -/
def tableUpsert : Table → String → CacheRow → Table
  | [], k, r => [(k, r)]
  | p :: rest, k, r => if p.1 = k then (k, r) :: rest else p :: tableUpsert rest k r

/-- `UPDATE subscription_cache SET fail_count = fail_count + 1,
updated_at = ? WHERE cache_key = ?`: every matching row is bumped, the
rest stay. -/
def tableUpdateFail : Table → String → Int → Table
  | [], _, _ => []
  | p :: rest, k, now =>
    (if p.1 = k then (p.1, { p.2 with fail_count := p.2.fail_count + 1, updated_at := now })
     else p) :: tableUpdateFail rest k now

/-- The shape `getCachedContent` returns on a hit. -/
structure CachedContent where
  content : String
  successCount : Int
  failCount : Int
  createdAt : Int
deriving DecidableEq, Repr

/-- `getCachedContent(cacheKey)` from `cacheManager.js`: `null` when the
D1 binding is absent or the key misses, otherwise the four selected
columns. -/
def getCachedContent (db : Option Table) (cacheKey : String) : Option CachedContent :=
  match db with
  | none => none
  | some t => (tableGet t cacheKey).map fun r =>
      { content := r.content, successCount := r.success_count,
        failCount := r.fail_count, createdAt := r.created_at }

/-- `saveToCache(cacheKey, url, content)` from `cacheManager.js`: `false`
without the D1 binding; otherwise `INSERT OR REPLACE` with both timestamp
columns set to `now`, `success_count` from
`COALESCE((SELECT success_count + 1 ...), 1)` and `fail_count` from
`COALESCE((SELECT fail_count ...), 0)`.  Returns the success flag and the
table afterwards. -/
def saveToCache (db : Option Table) (cacheKey url content : String) (now : Int) :
    Bool × Option Table :=
  match db with
  | none => (false, none)
  | some t =>
    let succ : Int := match tableGet t cacheKey with
      | some r => r.success_count + 1
      | none => 1
    let fail : Int := match tableGet t cacheKey with
      | some r => r.fail_count
      | none => 0
    (true, some (tableUpsert t cacheKey
      { url := url, content := content, created_at := now, updated_at := now,
        success_count := succ, fail_count := fail }))

/-- `recordFailAttempt(cacheKey)` from `cacheManager.js`: `false` without
the D1 binding; otherwise the `UPDATE` runs (matching zero or one row) and
the function returns `true` unconditionally. -/
def recordFailAttempt (db : Option Table) (cacheKey : String) (now : Int) :
    Bool × Option Table :=
  match db with
  | none => (false, none)
  | some t => (true, some (tableUpdateFail t cacheKey now))

/-- `n` consecutive `recordFailAttempt` calls on the same key. -/
def recordFailN (db : Option Table) (cacheKey : String) (now : Int) : Nat → Option Table
  | 0 => db
  | n + 1 => (recordFailAttempt (recordFailN db cacheKey now n) cacheKey now).2

/-- The shape `getCacheStats` returns. -/
inductive CacheStats where
  | err (error : String)
  | ok (totalCached : Nat) (withSuccess : Nat)
deriving DecidableEq, Repr

/-- `SELECT COUNT(*) FROM subscription_cache`: a scan counting rows. -/
def sqlCountAll : Table → Nat
  | [] => 0
  | _ :: rest => sqlCountAll rest + 1

/-- `SELECT COUNT(*) FROM subscription_cache WHERE success_count > 0`. -/
def sqlCountWithSuccess : Table → Nat
  | [] => 0
  | p :: rest => (if p.2.success_count > 0 then 1 else 0) + sqlCountWithSuccess rest

/-- `getCacheStats()` from `cacheManager.js`: an error shape without the
D1 binding, otherwise only `totalCached` (row count) and `withSuccess`
(rows with a positive success counter). -/
def getCacheStats (db : Option Table) : CacheStats :=
  match db with
  | none => .err "D1 database not initialized"
  | some t => .ok (sqlCountAll t) (sqlCountWithSuccess t)

/-- The row the `stats` command of `scripts/cache.js` selects:
`COUNT(*)`, `SUM(success_count)`, `SUM(fail_count)`,
`SUM(length(content))`. -/
structure StatsRow where
  total : Nat
  total_success : Int
  total_fail : Int
  total_size : Nat
deriving DecidableEq, Repr

/-- The aggregate query issued by `showStats` in `scripts/cache.js`, as a
scan over the table. -/
def statsQuery : Table → StatsRow
  | [] => { total := 0, total_success := 0, total_fail := 0, total_size := 0 }
  | p :: rest =>
    let s := statsQuery rest
    { total := s.total + 1,
      total_success := s.total_success + p.2.success_count,
      total_fail := s.total_fail + p.2.fail_count,
      total_size := s.total_size + p.2.content.length }

/-- A lookup right after an upsert of the same key sees the new row. -/
theorem tableGet_upsert_self (t : Table) (k : String) (r : CacheRow) :
    tableGet (tableUpsert t k r) k = some r := by
  induction t with
  | nil => simp [tableUpsert, tableGet]
  | cons p rest ih =>
    by_cases h : p.1 = k
    · simp [tableUpsert, tableGet, h]
    · simp [tableUpsert, tableGet, h, ih]

/-- A lookup after the fail-count `UPDATE` sees the bumped row (or still
nothing). -/
theorem tableGet_updateFail_self (t : Table) (k : String) (now : Int) :
    tableGet (tableUpdateFail t k now) k =
      (tableGet t k).map
        (fun r => { r with fail_count := r.fail_count + 1, updated_at := now }) := by
  induction t with
  | nil => simp [tableUpdateFail, tableGet]
  | cons p rest ih =>
    by_cases h : p.1 = k
    · simp [tableUpdateFail, tableGet, h]
    · simp [tableUpdateFail, tableGet, h, ih]

/-- The fail-count `UPDATE` on an absent key changes no row. -/
theorem tableUpdateFail_absent (t : Table) (k : String) (now : Int)
    (h : tableGet t k = none) : tableUpdateFail t k now = t := by
  induction t with
  | nil => simp [tableUpdateFail]
  | cons p rest ih =>
    by_cases hp : p.1 = k
    · simp [tableGet, hp] at h
    · simp only [tableGet, hp, if_false, if_neg hp] at h
      simp [tableUpdateFail, hp, ih h]

/-- C6: `saveToCache` upserts.  On an existing row the content is replaced,
both timestamps refreshed, `success_count` incremented by one and
`fail_count` preserved; on a fresh key a row with `success_count = 1` and
`fail_count = 0` is inserted, so two consecutive puts of `c` on a fresh key
leave `success_count = 2`, the content `c` and `fail_count` unchanged. -/
theorem saveToCache_upsert (t : Table) (k u c : String) (now now' : Int) :
    (∀ r, tableGet t k = some r →
      (saveToCache (some t) k u c now).1 = true ∧
      ∃ t', (saveToCache (some t) k u c now).2 = some t' ∧
        tableGet t' k = some
          { url := u, content := c, created_at := now, updated_at := now,
            success_count := r.success_count + 1, fail_count := r.fail_count })
    ∧ (tableGet t k = none →
      (saveToCache (some t) k u c now).1 = true ∧
      ∃ t', (saveToCache (some t) k u c now).2 = some t' ∧
        tableGet t' k = some
          { url := u, content := c, created_at := now, updated_at := now,
            success_count := 1, fail_count := 0 })
    ∧ (tableGet t k = none →
      ∃ t2, (saveToCache ((saveToCache (some t) k u c now).2) k u c now').2 = some t2 ∧
        ∃ r2, tableGet t2 k = some r2 ∧ r2.success_count = 2 ∧ r2.content = c ∧
          r2.fail_count = 0) := by
  refine ⟨?_, ?_, ?_⟩
  · intro r h
    refine ⟨by simp [saveToCache, h], ?_⟩
    exact ⟨tableUpsert t k
        { url := u, content := c, created_at := now, updated_at := now,
          success_count := r.success_count + 1, fail_count := r.fail_count },
      by simp [saveToCache, h], tableGet_upsert_self t k _⟩
  · intro h
    refine ⟨by simp [saveToCache, h], ?_⟩
    exact ⟨tableUpsert t k
        { url := u, content := c, created_at := now, updated_at := now,
          success_count := 1, fail_count := 0 },
      by simp [saveToCache, h], tableGet_upsert_self t k _⟩
  · intro h
    have h1 : (saveToCache (some t) k u c now).2 =
        some (tableUpsert t k
          { url := u, content := c, created_at := now, updated_at := now,
            success_count := 1, fail_count := 0 }) := by
      simp [saveToCache, h]
    rw [h1]
    have h2 := tableGet_upsert_self t k
      { url := u, content := c, created_at := now, updated_at := now,
        success_count := 1, fail_count := 0 }
    refine ⟨tableUpsert (tableUpsert t k
        { url := u, content := c, created_at := now, updated_at := now,
          success_count := 1, fail_count := 0 }) k
        { url := u, content := c, created_at := now', updated_at := now',
          success_count := 1 + 1, fail_count := 0 },
      by simp [saveToCache, h2], ?_⟩
    exact ⟨_, tableGet_upsert_self _ k _, by norm_num, rfl, rfl⟩

/-- C6 witness: two consecutive puts of `"X"` on the fresh key `"k"` of an
empty table leave `success_count = 2`, content `"X"` and
`fail_count = 0`. -/
theorem saveToCache_upsert_witness :
    ∃ t2, (saveToCache ((saveToCache (some ([] : Table)) "k" "u" "X" 1).2)
        "k" "u" "X" 2).2 = some t2 ∧
      ∃ r2, tableGet t2 "k" = some r2 ∧ r2.success_count = 2 ∧ r2.content = "X" ∧
        r2.fail_count = 0 :=
  (saveToCache_upsert [] "k" "u" "X" 1 2).2.2 rfl

/-- C7 counterexample: on an empty table (no row for the key),
`recordFailAttempt` returns `true` — the `UPDATE ... WHERE cache_key = ?`
simply matches zero rows and `run()` succeeds — where the claim says the
call returns `false`. -/
theorem recordFailAttempt_absent_returns_true :
    ¬ ((recordFailAttempt (some ([] : Table)) "k" 5).1 = false) := by decide

/-- Any chain of `recordFailAttempt` calls keeps the stored content and
success counter of an existing row, bumping only `fail_count`. -/
theorem recordFailN_preserves (k : String) (now : Int) (t : Table) (r : CacheRow)
    (h : tableGet t k = some r) (n : Nat) :
    ∃ t', recordFailN (some t) k now n = some t' ∧
      ∃ r', tableGet t' k = some r' ∧ r'.content = r.content ∧
        r'.success_count = r.success_count ∧
        r'.fail_count = r.fail_count + n := by
  induction n with
  | zero => exact ⟨t, rfl, r, h, rfl, rfl, by simp⟩
  | succ n ih =>
    obtain ⟨t', ht', r', hr', hc, hs, hf⟩ := ih
    refine ⟨tableUpdateFail t' k now, by simp [recordFailN, ht', recordFailAttempt], ?_⟩
    refine ⟨{ r' with fail_count := r'.fail_count + 1, updated_at := now }, ?_, hc, hs, ?_⟩
    · simp [tableGet_updateFail_self, hr']
    · rw [hf]; push_cast; ring

/-- C7 amended: `recordFailAttempt` increments `fail_count` and refreshes
`updated_at` on an existing row while leaving `content` and
`success_count` unchanged (also across any number of calls, and after a
`saveToCache` of content `c` the content stays `c`); on an absent key it
is a no-op on the table — it never creates an entry — but it returns
`true`, not `false`: the `UPDATE` runs successfully even with zero
matching rows. -/
theorem recordFailAttempt_spec (k : String) (now : Int) :
    (∀ t r, tableGet t k = some r →
      recordFailAttempt (some t) k now = (true, some (tableUpdateFail t k now)) ∧
      tableGet (tableUpdateFail t k now) k =
        some { r with fail_count := r.fail_count + 1, updated_at := now })
    ∧ (∀ t, tableGet t k = none → recordFailAttempt (some t) k now = (true, some t))
    ∧ (∀ t r, tableGet t k = some r → ∀ n,
        ∃ t', recordFailN (some t) k now n = some t' ∧
          ∃ r', tableGet t' k = some r' ∧ r'.content = r.content ∧
            r'.success_count = r.success_count ∧
            r'.fail_count = r.fail_count + n)
    ∧ (∀ t u c now' n,
        ∃ t', recordFailN ((saveToCache (some t) k u c now').2) k now n = some t' ∧
          ∃ r', tableGet t' k = some r' ∧ r'.content = c) := by
  refine ⟨?_, ?_, ?_, ?_⟩
  · intro t r h
    exact ⟨rfl, by simp [tableGet_updateFail_self, h]⟩
  · intro t h
    simp [recordFailAttempt, tableUpdateFail_absent t k now h]
  · intro t r h n
    exact recordFailN_preserves k now t r h n
  · intro t u c now' n
    have key : ∃ t1 row, (saveToCache (some t) k u c now').2 = some t1 ∧
        tableGet t1 k = some row ∧ row.content = c := by
      cases htk : tableGet t k with
      | some r0 =>
        refine ⟨tableUpsert t k
            { url := u, content := c, created_at := now', updated_at := now',
              success_count := r0.success_count + 1, fail_count := r0.fail_count },
          _, ?_, tableGet_upsert_self t k _, rfl⟩
        simp [saveToCache, htk]
      | none =>
        refine ⟨tableUpsert t k
            { url := u, content := c, created_at := now', updated_at := now',
              success_count := 1, fail_count := 0 },
          _, ?_, tableGet_upsert_self t k _, rfl⟩
        simp [saveToCache, htk]
    obtain ⟨t1, row, h1, h2, h3⟩ := key
    rw [h1]
    obtain ⟨t', ht', r', hr', hc, _, _⟩ := recordFailN_preserves k now t1 row h2 n
    exact ⟨t', ht', r', hr', by rw [hc, h3]⟩

/-- C7 witness: on an empty table `recordFailAttempt` leaves the table
unchanged, creating nothing, and returns `true`. -/
theorem recordFailAttempt_spec_witness :
    recordFailAttempt (some ([] : Table)) "k" 7 = (true, some []) :=
  (recordFailAttempt_spec "k" 7).2.1 [] rfl

/-- C9: a `saveToCache` on a key that already has a row sets *both*
`created_at` and `updated_at` to the current time — the original creation
timestamp is not preserved — while content, success and fail counters
follow the upsert rules. -/
theorem saveToCache_resets_created_at (t : Table) (k u c : String) (now : Int)
    (r : CacheRow) (h : tableGet t k = some r) :
    ∃ t', (saveToCache (some t) k u c now).2 = some t' ∧
      ∃ r', tableGet t' k = some r' ∧ r'.created_at = now ∧ r'.updated_at = now ∧
        (r.created_at ≠ now → r'.created_at ≠ r.created_at) ∧
        r'.content = c ∧ r'.success_count = r.success_count + 1 ∧
        r'.fail_count = r.fail_count := by
  refine ⟨tableUpsert t k
      { url := u, content := c, created_at := now, updated_at := now,
        success_count := r.success_count + 1, fail_count := r.fail_count },
    by simp [saveToCache, h], ?_⟩
  exact ⟨_, tableGet_upsert_self t k _, rfl, rfl, fun hne => Ne.symm hne, rfl, rfl, rfl⟩

/-- A fixed pre-existing row used by the concrete witnesses. -/
def row0 : CacheRow :=
  { url := "u0", content := "old", created_at := 0, updated_at := 0,
    success_count := 1, fail_count := 2 }

/-- C9 witness: updating the row stored at time 0 at time 5 leaves both
timestamps at 5. -/
theorem saveToCache_resets_created_at_witness :
    ∃ t', (saveToCache (some [("k", row0)]) "k" "u" "new" 5).2 = some t' ∧
      ∃ r', tableGet t' "k" = some r' ∧ r'.created_at = 5 ∧ r'.updated_at = 5 ∧
        (row0.created_at ≠ 5 → r'.created_at ≠ row0.created_at) ∧
        r'.content = "new" ∧ r'.success_count = row0.success_count + 1 ∧
        r'.fail_count = row0.fail_count :=
  saveToCache_resets_created_at [("k", row0)] "k" "u" "new" 5 row0 (by decide)

/-- `COUNT(*)` is the number of stored entries. -/
theorem sqlCountAll_eq (t : Table) : sqlCountAll t = t.length := by
  induction t with
  | nil => rfl
  | cons p rest ih => simp [sqlCountAll, ih]

/-- The filtered count is the number of entries with a positive success
counter. -/
theorem sqlCountWithSuccess_eq (t : Table) :
    sqlCountWithSuccess t = t.countP (fun p => decide (0 < p.2.success_count)) := by
  induction t with
  | nil => rfl
  | cons p rest ih =>
    by_cases h : 0 < p.2.success_count
    · simp [sqlCountWithSuccess, ih, List.countP_cons, h]
      omega
    · simp [sqlCountWithSuccess, ih, List.countP_cons, h]

/-- The admin stats query aggregates entry count, success counters, fail
counters and content sizes over all entries. -/
theorem statsQuery_eq (t : Table) :
    statsQuery t =
      { total := t.length,
        total_success := (t.map (fun p => p.2.success_count)).sum,
        total_fail := (t.map (fun p => p.2.fail_count)).sum,
        total_size := (t.map (fun p => p.2.content.length)).sum } := by
  induction t with
  | nil => rfl
  | cons p rest ih =>
    simp only [statsQuery, ih, List.map_cons, List.sum_cons, List.length_cons,
      StatsRow.mk.injEq]
    refine ⟨trivial, by ring, by ring, by ring⟩

/-- Two single-row tables that differ in fail counter, success counter
value and content size, but agree on what `getCacheStats` measures. -/
def rowStatsA : CacheRow :=
  { url := "u", content := "a", created_at := 0, updated_at := 0,
    success_count := 1, fail_count := 0 }

/-- See `rowStatsA`. -/
def rowStatsB : CacheRow :=
  { url := "u", content := "abc", created_at := 0, updated_at := 0,
    success_count := 5, fail_count := 7 }

/-- C8 counterexample: `getCacheStats` cannot be the claimed four-field
aggregate — it returns identical results on two tables whose failure
counters, success counter sums and content sizes differ (as the admin
script aggregate shows). -/
theorem getCacheStats_ignores_aggregates :
    getCacheStats (some [("k", rowStatsA)]) = getCacheStats (some [("k", rowStatsB)]) ∧
    statsQuery [("k", rowStatsA)] ≠ statsQuery [("k", rowStatsB)] := by
  refine ⟨rfl, by decide⟩

/-- C8 amended: the worker endpoint `getCacheStats` returns only
`totalCached` (the number of stored entries) and `withSuccess` (the number
of entries with a positive success counter); the four-field aggregate of
entry count, success counters, failure counters and content sizes is
computed by the `stats` command of the admin script `scripts/cache.js`,
not by `getCacheStats`. -/
theorem cacheStats_shape (t : Table) :
    getCacheStats (some t) =
      .ok t.length (t.countP (fun p => decide (0 < p.2.success_count))) ∧
    statsQuery t =
      { total := t.length,
        total_success := (t.map (fun p => p.2.success_count)).sum,
        total_fail := (t.map (fun p => p.2.fail_count)).sum,
        total_size := (t.map (fun p => p.2.content.length)).sum } :=
  ⟨by simp [getCacheStats, sqlCountAll_eq, sqlCountWithSuccess_eq], statsQuery_eq t⟩

/-- The `Result` object `fetchWithCache` resolves with (`none` fields are
absent properties). -/
structure FetchResult where
  content : Option String
  fromCache : Bool
  success : Bool
  warning : Option String
  error : Option String
deriving DecidableEq, Repr

/-- `options.maxRetries || 3`: `0` is falsy in JS, so an absent property
and an explicit `0` both select the default `3`. -/
def jsOrDefault : Option Nat → Nat → Nat
  | none, d => d
  | some 0, d => d
  | some (n + 1), _ => n + 1

/-- `error.message` on the caught value: fine on an `Error` object, but a
`TypeError` if `null` was thrown (property read on `null`). -/
def errorMessage : JsError → Except JsError String
  | .jsError msg => .ok msg
  | .typeError msg => .ok msg
  | .thrownNull => .error (.typeError "Cannot read properties of null")

/-- `fetchWithCache(url, options)` from `cacheManager.js`.  The key is
derived *before* the `try` block, so an exception from `generateCacheKey`
propagates to the caller.  On fetch success the content is saved
(best-effort) and returned fresh; on exhausted failure the catch block
first reads `error.message` (the `console.error` call), then falls back to
a cached row with truthy (non-empty) content, else resolves with
`success: false` and the error message.  Returns the settled result (or
the propagated exception), the table afterwards, and the request trace. -/
def fetchWithCache (net : Nat → FetchOutcome) (now : Int) (db : Option Table)
    (url : String) (options : JsOptions) :
    Except JsError FetchResult × Option Table × List RequestInit :=
  match generateCacheKey (.vStr url) with
  | .error e => (.error e, db, [])
  | .ok cacheKey =>
    let maxRetries := jsOrDefault options.maxRetries 3
    match fetchWithRetry net options maxRetries with
    | (.ok content, trace) =>
      (.ok { content := some content, fromCache := false, success := true,
             warning := none, error := none },
       (saveToCache db cacheKey url content now).2, trace)
    | (.error e, trace) =>
      match errorMessage e with
      | .error e' => (.error e', db, trace)
      | .ok msg =>
        match getCachedContent db cacheKey with
        | some cached =>
          if cached.content = "" then
            (.ok { content := none, fromCache := false, success := false,
                   warning := none, error := some msg }, db, trace)
          else
            (.ok { content := some cached.content, fromCache := true, success := true,
                   warning := some "Remote fetch failed, using cached content",
                   error := none }, db, trace)
        | none =>
          (.ok { content := none, fromCache := false, success := false,
                 warning := none, error := some msg }, db, trace)

/-- C1: the claim says `fetchWithCache` always settles with a terminal
result object and never raises.  Because `generateCacheKey` raises a
`TypeError` on every non-empty URL (`charCodeAt` on a `Uint8Array`) and is
called before the `try` block, `fetchWithCache` propagates that exception
to its caller for every non-empty URL, whatever the network, clock, store
state and options. -/
theorem fetchWithCache_raises_for_nonempty_url :
    ∀ (net : Nat → FetchOutcome) (now : Int) (db : Option Table) (options : JsOptions),
      (fetchWithCache net now db "https://a.test/sub" options).1 =
        .error (.typeError "data.charCodeAt is not a function") := by
  intro net now db options
  rfl

/-- A stored entry whose content the fallback path would serve if it were
reachable. -/
def cachedTable : Table :=
  [("1df3c240", { url := "https://a.test/sub", content := "PROXYLIST_V1",
                  created_at := 0, updated_at := 0, success_count := 1,
                  fail_count := 0 })]

/-- C3: the claim says that when every attempt fails and the cache holds
non-empty content, `fetchWithCache` returns that content with
`fromCache: true`.  Instead the call throws the `generateCacheKey`
`TypeError` before a single fetch attempt or cache read happens: the
result is the propagated exception, the trace is empty and the stored
entry is never consulted. -/
theorem fetchWithCache_fallback_unreachable :
    fetchWithCache netAlwaysFail 0 (some cachedTable) "https://a.test/sub"
        { headers := none, maxRetries := none } =
      (.error (.typeError "data.charCodeAt is not a function"), some cachedTable, []) := by
  rfl

/-- C10: the claim says an absent or falsy `maxRetries` (including an
explicit `0`) yields exactly 3 attempts.  The `options.maxRetries || 3`
default is real — with the empty URL (the only URL whose key derivation
does not throw) an always-failing origin is tried exactly 3 times both
for an absent and for a zero `maxRetries` — but for any non-empty URL the
call throws before a single attempt is made, so zero attempts occur, not
three. -/
theorem fetchWithCache_maxRetries_default :
    (fetchWithCache netAlwaysFail 0 none "https://a.test/sub"
        { headers := none, maxRetries := some 0 }).2.2 = [] ∧
    (fetchWithCache netAlwaysFail 0 none ""
        { headers := none, maxRetries := some 0 }).2.2.length = 3 ∧
    (fetchWithCache netAlwaysFail 0 none ""
        { headers := none, maxRetries := none }).2.2.length = 3 ∧
    (fetchWithCache netAlwaysFail 0 none ""
        { headers := none, maxRetries := none }).1 =
      .ok { content := none, fromCache := false, success := false,
            warning := none, error := some "connection refused" } := by
  refine ⟨rfl, rfl, rfl, rfl⟩
